import Mathlib

/-
Verification of the retrieval-augmented ticket routing core of
project-smarttickets: a shallow embedding, in Lean, of the assignment
engine (app/assignment_agent.py), the solution engine
(app/solution_agent.py) and the grading helper (app/evaluation.py),
together with theorems about the embedded code.

External effects are made explicit: results of the database and of the
chat-completion endpoint are parameters (environments), and every call
the code issues (embedding, retrieval, chat) is recorded in a trace.
Model responses are modelled after parsing: the environment yields, per
chat-call index, the structured record that safe_parse_json produced
from the raw content.  The JSON decoder of the standard library is kept
abstract (a parameter of type String to Option record): the parser
theorems hold for every decoder.
-/

namespace SmartTickets

/-- A row of the teams table as produced by load_all_teams: id and display name. -/
structure Team where
  team_id : String
  team_name : String
deriving Repr, DecidableEq

/-- A row returned by top_k_similar: ticket id, subject (as title), body, answer,
assigned team id/name (nullable via the LEFT JOIN) and the distance score,
whose numeric type is kept abstract. -/
structure Neighbor (σ : Type) where
  ticket_id : Int
  title : Option String
  body : Option String
  answer : Option String
  assigned_team_id : Option String
  assigned_team_name : Option String
  score : σ

/-- Python `x or d` on an optional string: the default replaces both a missing
value (None) and the empty string, which are falsy. -/
def pyOr (v : Option String) (d : String) : String :=
  match v with
  | none => d
  | some s => if s = "" then d else s

/-- Whitespace characters of the Python regex class backslash-s (ASCII range). -/
def isSpaceChar (c : Char) : Bool :=
  c = ' ' || c = '\t' || c = '\n' || c = '\r' || c = '\x0b' || c = '\x0c'

/-- Python str.strip(): remove leading and trailing whitespace. -/
def pyStrip (s : String) : String :=
  String.mk (((s.data.dropWhile isSpaceChar).reverse.dropWhile isSpaceChar).reverse)

/-- Python str.lower() on the ASCII range, character by character. -/
def lowerStr (s : String) : String :=
  String.mk (s.data.map Char.toLower)

/-- normalize from app/assignment_agent.py: strip then casefold. -/
def normalize (s : String) : String :=
  lowerStr (pyStrip s)

/-- Does the pattern occur at the head of the character list? -/
def leadMatch : List Char → List Char → Bool
  | [], _ => true
  | _ :: _, [] => false
  | p :: ps, c :: cs => (p = c) && leadMatch ps cs

/-- Does the pattern occur anywhere in the character list? -/
def occursIn (p : List Char) : List Char → Bool
  | [] => leadMatch p []
  | c :: cs => leadMatch p (c :: cs) || occursIn p cs

/-- Drop leading whitespace characters. -/
def dropSpaces : List Char → List Char
  | [] => []
  | c :: cs => if isSpaceChar c then dropSpaces cs else c :: cs

/-- Match of the regex piece reach-whitespace-star-out at the head of the list. -/
def reachOutAt (l : List Char) : Bool :=
  leadMatch ("reach".data) l && leadMatch ("out".data) (dropSpaces (l.drop 5))

/-- Match of the regex piece reach-whitespace-star-out anywhere in the list. -/
def reachOutIn : List Char → Bool
  | [] => false
  | c :: cs => reachOutAt (c :: cs) || reachOutIn cs

/-- CONTACT_RE.search from app/solution_agent.py: case-insensitive search for
contact, call, email, reach-whitespace-out, open a ticket, service desk. -/
def contactMatch (s : String) : Bool :=
  let l := (lowerStr s).data
  occursIn ("contact".data) l || occursIn ("call".data) l ||
    occursIn ("email".data) l || reachOutIn l ||
    occursIn ("open a ticket".data) l || occursIn ("service desk".data) l

/-- _is_actionable from app/solution_agent.py: a falsy answer, an answer whose
stripped length is below 40, or one matching CONTACT_RE, is not actionable. -/
def is_actionable (answer : Option String) : Bool :=
  match answer with
  | none => false
  | some a =>
    if a = "" then false
    else if (pyStrip a).length < 40 then false
    else if contactMatch a then false
    else true

/-- The structured record safe_parse_json yields for the assignment engine:
the three fields the validator reads, each possibly missing. -/
structure ParsedResp where
  assigned_team_id : Option String
  assigned_team_name : Option String
  reasoning : Option String
deriving Repr, DecidableEq

/-- Leading code-fence removal of safe_parse_json: the regex piece that deletes
three backticks, an optional case-insensitive json tag, and following whitespace,
anchored at the start. -/
def stripLeadFence (s : String) : String :=
  if leadMatch ("```".data) s.data then
    let r := s.data.drop 3
    let r := if (r.take 4).map Char.toLower = "json".data then r.drop 4 else r
    String.mk (r.dropWhile isSpaceChar)
  else s

/-- Trailing code-fence removal of safe_parse_json: the regex piece that deletes
whitespace followed by three backticks, anchored at the end. -/
def stripTrailFence (s : String) : String :=
  if leadMatch ("```".data) s.data.reverse then
    String.mk (((s.data.reverse.drop 3).dropWhile isSpaceChar).reverse)
  else s

/-- The fallback substring search of safe_parse_json: the greedy dotall regex
match from the first opening brace to the last closing brace, if any. -/
def extractBraces (s : String) : Option String :=
  let l := s.data
  let suf := l.dropWhile (fun c => c ≠ '\x7b')
  let core := (suf.reverse.dropWhile (fun c => c ≠ '\x7d')).reverse
  if core.isEmpty then none else some (String.mk core)

/-- safe_parse_json from app/assignment_agent.py, with the JSON decoder of the
standard library abstracted as a parameter: strip fences from the stripped
input, try a direct decode, fall back to the first-to-last-brace substring,
and on total failure return the degraded record that carries the cleaned text
as the team name together with a diagnostic reasoning. -/
def safe_parse_json (loads : String → Option ParsedResp) (text_in : String) :
    ParsedResp :=
  let t := stripTrailFence (stripLeadFence (pyStrip text_in))
  match loads t with
  | some r => r
  | none =>
    match extractBraces t with
    | some sub =>
      match loads sub with
      | some r => r
      | none =>
        { assigned_team_id := some "", assigned_team_name := some (pyStrip t),
          reasoning := some "Parsed from non-JSON output." }
    | none =>
      { assigned_team_id := some "", assigned_team_name := some (pyStrip t),
        reasoning := some "Parsed from non-JSON output." }

/-- The decision dictionary assign_team returns. -/
structure Decision where
  assigned_team_id : String
  assigned_team_name : String
  reasoning : String
deriving Repr, DecidableEq

/-- A chat-completion request of the assignment engine, with the structured
ingredients of its prompt: the candidate list serialized into the prompt via
json.dumps and the query text. -/
structure ChatRequest where
  model : String
  temperature : Option Nat
  responseFormatJson : Bool
  optionsList : List Team
  queryText : String
deriving Repr, DecidableEq

/-- An external call issued by the assignment engine, in order. -/
inductive ACall where
  | embed (queryText : String)
  | retrieve (topK : Nat) (excludeId : Int)
  | chat (req : ChatRequest)
deriving Repr, DecidableEq

/-- The environment of one assign_team run: the teams load_all_teams returns,
the rows top_k_similar returns, and the parsed model response of the n-th
chat call (the value of safe_parse_json on its raw content). -/
structure AEnv (σ : Type) where
  teams : List Team
  sims : List (Neighbor σ)
  responses : Nat → ParsedResp

/-- The candidate lookup by normalized team id used in _validate_or_retry. -/
def findById (candidates : List Team) (wantId : String) : Option Team :=
  candidates.find? (fun t => normalize t.team_id == wantId)

/-- The candidate lookup by normalized team name used in _validate_or_retry. -/
def findByName (candidates : List Team) (wantName : String) : Option Team :=
  candidates.find? (fun t => normalize t.team_name == wantName)

/-- The request _retry_llm_assignment issues: temperature zero, JSON response
format, the full candidate list in the prompt. -/
def retryRequest (candidates : List Team) (queryText : String) : ChatRequest :=
  { model := "gpt-4o-mini", temperature := some 0, responseFormatJson := true,
    optionsList := candidates, queryText := queryText }

/-- The decision taken on the parsed retry response in _validate_or_retry:
match by normalized id, then by normalized name, else the Unassigned
sentinel of the double failure. -/
def retryDecision (retry_parsed : ParsedResp) (candidates : List Team) :
    Decision :=
  match findById candidates (normalize (retry_parsed.assigned_team_id.getD "")) with
  | some t =>
      { assigned_team_id := t.team_id, assigned_team_name := t.team_name,
        reasoning :=
          retry_parsed.reasoning.getD "Valid team found after retry (by ID)." }
  | none =>
    match findByName candidates (normalize (retry_parsed.assigned_team_name.getD "")) with
    | some t =>
        { assigned_team_id := t.team_id, assigned_team_name := t.team_name,
          reasoning :=
            retry_parsed.reasoning.getD "Valid team found after retry (by name)." }
    | none =>
        { assigned_team_id := "", assigned_team_name := "Unassigned",
          reasoning := "Model failed twice to return a valid team from database." }

/-- _validate_or_retry from app/assignment_agent.py: match the parsed record
against the candidates by normalized id, then by normalized name; on failure
issue one retry chat call and decide on its parsed response.  The second
component lists the chat calls issued here (the retry call, when reached). -/
def validate_or_retry (env : AEnv σ) (parsed : ParsedResp)
    (candidates : List Team) (queryText : String) : Decision × List ACall :=
  match findById candidates (normalize (parsed.assigned_team_id.getD "")) with
  | some t =>
      ({ assigned_team_id := t.team_id, assigned_team_name := t.team_name,
         reasoning := parsed.reasoning.getD "Selected by ID." }, [])
  | none =>
    match findByName candidates (normalize (parsed.assigned_team_name.getD "")) with
    | some t =>
        ({ assigned_team_id := t.team_id, assigned_team_name := t.team_name,
           reasoning := parsed.reasoning.getD "Selected by name." }, [])
    | none =>
        (retryDecision (env.responses 1) candidates,
         [ACall.chat (retryRequest candidates queryText)])

/-- The normalized team ids observed among retrieved neighbors (truthy ids only),
as collected by the loop of assign_team. -/
def neighborTeamIds (sims : List (Neighbor σ)) : List String :=
  sims.filterMap (fun t =>
    match t.assigned_team_id with
    | none => none
    | some s => if s = "" then none else some (normalize s))

/-- The reduced team list assign_team serializes into the first prompt:
candidates whose normalized id was observed among neighbors, followed by at
most five of the remaining candidates; the full list when no candidate
matches a neighbor. -/
def reducedCandidates (candidates : List Team) (sims : List (Neighbor σ)) :
    List Team :=
  let ids := neighborTeamIds sims
  let neighbor_candidates :=
    candidates.filter (fun c => ids.contains (normalize c.team_id))
  if neighbor_candidates.isEmpty then candidates
  else
    let other_candidates :=
      candidates.filter (fun c => !(ids.contains (normalize c.team_id)))
    neighbor_candidates ++ other_candidates.take 5

/-- The first chat request assign_team issues: no temperature argument (the
line passing zero is commented out in the source), JSON response format, and
the reduced candidate list in the prompt. -/
def firstRequest (candidates : List Team) (sims : List (Neighbor σ))
    (queryText : String) : ChatRequest :=
  { model := "gpt-4o-mini", temperature := none, responseFormatJson := true,
    optionsList := reducedCandidates candidates sims, queryText := queryText }

/-- assign_team from app/assignment_agent.py.  Returns the decision and the
trace of external calls: nothing at all when no team exists; otherwise one
embedding call, one retrieval call, the first chat call, and whatever
_validate_or_retry issues. -/
def assign_team (env : AEnv σ) (ticket_id : Int) (subject body : String)
    (top_k : Nat) : Decision × List ACall :=
  let candidates := env.teams
  if candidates.isEmpty then
    ({ assigned_team_id := "", assigned_team_name := "Unassigned",
       reasoning := "No teams found in database." }, [])
  else
    let query_text := "Subject: " ++ subject ++ "\nBody: " ++ body
    let sims := env.sims
    let req := firstRequest candidates sims query_text
    let parsed := env.responses 0
    let vr := validate_or_retry env parsed candidates query_text
    (vr.1,
     [ACall.embed query_text, ACall.retrieve top_k ticket_id, ACall.chat req]
       ++ vr.2)

/-- The chat requests recorded in an assignment trace, in order. -/
def chatRequests (trace : List ACall) : List ChatRequest :=
  trace.filterMap (fun c =>
    match c with
    | ACall.chat r => some r
    | _ => none)

/-- Does the first parsed model response match a candidate by normalized id or
normalized name?  This is the condition under which no retry is issued. -/
def firstMatches (env : AEnv σ) : Bool :=
  (findById env.teams
      (normalize ((env.responses 0).assigned_team_id.getD ""))).isSome ||
    (findByName env.teams
      (normalize ((env.responses 0).assigned_team_name.getD ""))).isSome

/-- A context line of the solution prompt, structurally: the ticket id, title
(with the N/A default) and answer the line interpolates. -/
structure CtxLine where
  ticket_id : Int
  title : String
  answer : String
deriving Repr, DecidableEq

/-- A returned source reference: ticket id, title and score of a neighbor. -/
structure SourceRef (σ : Type) where
  ticket_id : Int
  title : Option String
  score : σ
deriving Repr, DecidableEq

/-- The chat request of the solution engine, with the structured ingredients
of its prompt: the query text and the context lines built from neighbors. -/
structure SolChatRequest where
  model : String
  temperature : Option Nat
  responseFormatJson : Bool
  queryText : String
  contextLines : List CtxLine
deriving Repr, DecidableEq

/-- An external call issued by the solution engine, in order. -/
inductive SCall where
  | embed (queryText : String)
  | retrieve (topK : Nat) (excludeId : Int)
  | chat (req : SolChatRequest)
deriving Repr, DecidableEq

/-- The environment of one generate_solution run: the rows top_k_similar
returns and the solution field of the parsed chat response. -/
structure SolEnv (σ : Type) where
  sims : List (Neighbor σ)
  respSolution : Option String

/-- The dictionary generate_solution returns. -/
structure SolResult (σ : Type) where
  solution : String
  sources : List (SourceRef σ)
deriving Repr, DecidableEq

/-- The neighbor loop of generate_solution: in neighbor order, keep a context
line and a source entry exactly for the rows whose answer (defaulted to the
empty string) is actionable. -/
def buildContext : List (Neighbor σ) → List CtxLine × List (SourceRef σ)
  | [] => ([], [])
  | r :: rest =>
    let prev := buildContext rest
    if is_actionable (some (pyOr r.answer "")) then
      ({ ticket_id := r.ticket_id, title := pyOr r.title "N/A",
         answer := pyOr r.answer "" } :: prev.1,
       { ticket_id := r.ticket_id, title := r.title, score := r.score } :: prev.2)
    else prev

/-- generate_solution from app/solution_agent.py.  Returns the result and the
trace of external calls.  The guard compares the stripped interpolated query
text with the empty string, exactly as the source does. -/
def generate_solution (env : SolEnv σ) (ticket_id : Int) (subject body : String)
    (top_k : Nat) : SolResult σ × List SCall :=
  let query_text := pyStrip ("Subject: " ++ subject ++ "\nBody: " ++ body)
  if query_text = "" then
    ({ solution := "No subject/body found for this ticket. Please provide details.",
       sources := [] }, [])
  else
    let sims := env.sims
    let bc := buildContext sims
    let req : SolChatRequest :=
      { model := "gpt-4o-mini", temperature := some 0, responseFormatJson := true,
        queryText := query_text, contextLines := bc.1 }
    let solution := pyOr env.respSolution "No solution generated."
    ({ solution := solution, sources := bc.2 },
     [SCall.embed query_text, SCall.retrieve top_k ticket_id, SCall.chat req])

/-- The chat requests recorded in a solution trace, in order. -/
def sChatRequests (trace : List SCall) : List SolChatRequest :=
  trace.filterMap (fun c =>
    match c with
    | SCall.chat r => some r
    | _ => none)

/-- The fields llm_grade_solution reads from the judge response JSON. -/
structure JudgeParsed where
  similarity : Option ℚ
  category : Option String
  explanation : Option String

/-- The record llm_grade_solution returns.  JSON numbers are modelled as
rationals. -/
structure JudgeResult where
  similarity : ℚ
  category : String
  explanation : String
deriving Repr, DecidableEq

/-- llm_grade_solution from app/evaluation.py, with the JSON decoder abstract
and the raw judge content a parameter: short-circuit on an empty stripped
solution, degrade on a parse failure, clamp the extracted similarity into
the unit interval, and re-derive an unrecognized category from the clamped
similarity with the 0.8 and 0.4 thresholds. -/
def llm_grade_solution (loadsJudge : String → Option JudgeParsed)
    (content : String) (_ticket_id : Int) (_subject _body : String)
    (reference_solution generated_solution : String) : JudgeResult :=
  let reference_solution := pyStrip reference_solution
  let generated_solution := pyStrip generated_solution
  if reference_solution = "" || generated_solution = "" then
    { similarity := 0, category := "mismatch",
      explanation := "One of the solutions is empty; cannot compare meaningfully." }
  else
    match loadsJudge content with
    | none =>
      { similarity := 0, category := "mismatch",
        explanation := "Could not parse judge response: " ++ content }
    | some data =>
      let similarity := data.similarity.getD 0
      let similarity := max 0 (min 1 similarity)
      let category := lowerStr (pyStrip (pyOr data.category ""))
      let category :=
        if category = "good_match" || category = "partial_match" ||
            category = "mismatch" then category
        else if similarity ≥ 4/5 then "good_match"
        else if similarity ≥ 2/5 then "partial_match"
        else "mismatch"
      { similarity := similarity, category := category,
        explanation := pyOr data.explanation "" }

theorem validate_or_retry_calls (env : AEnv σ) (p : ParsedResp)
    (cands : List Team) (q : String) :
    (validate_or_retry env p cands q).2 =
      if ((findById cands (normalize (p.assigned_team_id.getD ""))).isSome ||
          (findByName cands (normalize (p.assigned_team_name.getD ""))).isSome) = true
      then [] else [ACall.chat (retryRequest cands q)] := by
  cases hid : findById cands (normalize (p.assigned_team_id.getD "")) with
  | some t => simp [validate_or_retry, hid]
  | none =>
    cases hname : findByName cands (normalize (p.assigned_team_name.getD "")) with
    | some t => simp [validate_or_retry, hid, hname]
    | none => simp [validate_or_retry, hid, hname]

/-- Claim C3: when load_all_teams returns no team, assign_team makes no
external call at all (no embedding, no retrieval, no chat) and immediately
returns the unassigned sentinel with the no-teams reasoning. -/
theorem c3_no_teams_short_circuit (σ : Type) (env : AEnv σ) (ticket_id : Int)
    (subject body : String) (top_k : Nat) (h : env.teams = []) :
    assign_team env ticket_id subject body top_k =
      ({ assigned_team_id := "", assigned_team_name := "Unassigned",
         reasoning := "No teams found in database." }, []) := by
  simp [assign_team, h]

def c3Env : AEnv Unit :=
  { teams := [], sims := [], responses := fun _ => ⟨none, none, none⟩ }

theorem c3_no_teams_witness :
    c3Env.teams = [] ∧
    assign_team c3Env 1 "subj" "body" 5 =
      ({ assigned_team_id := "", assigned_team_name := "Unassigned",
         reasoning := "No teams found in database." }, []) :=
  ⟨rfl, c3_no_teams_short_circuit Unit c3Env 1 "subj" "body" 5 rfl⟩

/-- Claim C2: with a non-empty candidate set, assign_team issues at most two
chat-completion calls: exactly one when the first parsed response matches a
candidate by normalized id or name, exactly two otherwise. -/
theorem c2_bounded_retry (σ : Type) (env : AEnv σ) (ticket_id : Int)
    (subject body : String) (top_k : Nat) (h : env.teams ≠ []) :
    (chatRequests (assign_team env ticket_id subject body top_k).2).length ≤ 2 ∧
    (firstMatches env = true →
      (chatRequests (assign_team env ticket_id subject body top_k).2).length = 1) ∧
    (firstMatches env = false →
      (chatRequests (assign_team env ticket_id subject body top_k).2).length = 2) := by
  have hE : env.teams.isEmpty = false := by
    cases hT : env.teams with
    | nil => exact absurd hT h
    | cons a l => rfl
  have hvc := validate_or_retry_calls env (env.responses 0) env.teams
    ("Subject: " ++ subject ++ "\nBody: " ++ body)
  cases hB : firstMatches env with
  | true =>
    rw [firstMatches] at hB
    rw [hB] at hvc
    simp [assign_team, hE, chatRequests, hvc]
  | false =>
    rw [firstMatches] at hB
    rw [hB] at hvc
    simp [assign_team, hE, chatRequests, hvc]

def c2Env : AEnv Unit :=
  { teams := [⟨"T1", "Network"⟩, ⟨"T2", "Billing"⟩], sims := [],
    responses := fun _ => ⟨some "T1", some "Network", some "ok"⟩ }

theorem c2_bounded_retry_witness :
    c2Env.teams ≠ [] ∧
    ((chatRequests (assign_team c2Env 1 "subj" "body" 5).2).length ≤ 2 ∧
     (firstMatches c2Env = true →
       (chatRequests (assign_team c2Env 1 "subj" "body" 5).2).length = 1) ∧
     (firstMatches c2Env = false →
       (chatRequests (assign_team c2Env 1 "subj" "body" 5).2).length = 2)) :=
  ⟨by decide, c2_bounded_retry Unit c2Env 1 "subj" "body" 5 (by decide)⟩

def c1Env : AEnv Unit :=
  { teams := [⟨"T1", "Network"⟩], sims := [],
    responses := fun n =>
      if n = 0 then ⟨some "bogus", some "bogus", some "r"⟩
      else ⟨some "T1", none, none⟩ }

/-- Claim C1, counterexample: an accepted decision reached on the retry with
the reasoning field omitted carries the fallback string of the retry branch,
which is neither a model reasoning nor one of the two fallback strings the
claim lists. -/
theorem c1_counterexample :
    (assign_team c1Env 1 "subj" "body" 5).1 =
      { assigned_team_id := "T1", assigned_team_name := "Network",
        reasoning := "Valid team found after retry (by ID)." } ∧
    (assign_team c1Env 1 "subj" "body" 5).1.assigned_team_id ≠ "" ∧
    ¬ ((assign_team c1Env 1 "subj" "body" 5).1.reasoning = "r" ∨
       (assign_team c1Env 1 "subj" "body" 5).1.reasoning = "Selected by ID." ∨
       (assign_team c1Env 1 "subj" "body" 5).1.reasoning = "Selected by name.") := by
  decide

/-- Claim C1 as amended: every accepted decision (non-empty assigned id)
carries the canonical id and name of a loaded candidate, and its reasoning is
the reasoning of the accepted attempt or, when that attempt omitted it, the
fallback of the branch that accepted: Selected by ID. or Selected by name. on
the first attempt, and the two retry fallback strings on the retry. -/
theorem c1_closed_world (σ : Type) (env : AEnv σ) (ticket_id : Int)
    (subject body : String) (top_k : Nat)
    (hacc : (assign_team env ticket_id subject body top_k).1.assigned_team_id ≠ "") :
    (∃ t ∈ env.teams,
        (assign_team env ticket_id subject body top_k).1.assigned_team_id = t.team_id ∧
        (assign_team env ticket_id subject body top_k).1.assigned_team_name = t.team_name) ∧
    ((assign_team env ticket_id subject body top_k).1.reasoning =
        (env.responses 0).reasoning.getD "Selected by ID." ∨
     (assign_team env ticket_id subject body top_k).1.reasoning =
        (env.responses 0).reasoning.getD "Selected by name." ∨
     (assign_team env ticket_id subject body top_k).1.reasoning =
        (env.responses 1).reasoning.getD "Valid team found after retry (by ID)." ∨
     (assign_team env ticket_id subject body top_k).1.reasoning =
        (env.responses 1).reasoning.getD "Valid team found after retry (by name).") := by
  cases hE : env.teams.isEmpty with
  | true =>
    simp [assign_team, hE] at hacc
  | false =>
    cases hid : findById env.teams
        (normalize ((env.responses 0).assigned_team_id.getD "")) with
    | some t =>
      have ht : t ∈ env.teams := List.mem_of_find?_eq_some hid
      simp only [assign_team, hE, validate_or_retry, hid] at hacc ⊢
      exact ⟨⟨t, ht, rfl, rfl⟩, Or.inl rfl⟩
    | none =>
      cases hname : findByName env.teams
          (normalize ((env.responses 0).assigned_team_name.getD "")) with
      | some t =>
        have ht : t ∈ env.teams := List.mem_of_find?_eq_some hname
        simp only [assign_team, hE, validate_or_retry, hid, hname] at hacc ⊢
        exact ⟨⟨t, ht, rfl, rfl⟩, Or.inr (Or.inl rfl)⟩
      | none =>
        cases hid2 : findById env.teams
            (normalize ((env.responses 1).assigned_team_id.getD "")) with
        | some t =>
          have ht : t ∈ env.teams := List.mem_of_find?_eq_some hid2
          simp only [assign_team, hE, validate_or_retry, retryDecision,
            hid, hname, hid2] at hacc ⊢
          exact ⟨⟨t, ht, rfl, rfl⟩, Or.inr (Or.inr (Or.inl rfl))⟩
        | none =>
          cases hname2 : findByName env.teams
              (normalize ((env.responses 1).assigned_team_name.getD "")) with
          | some t =>
            have ht : t ∈ env.teams := List.mem_of_find?_eq_some hname2
            simp only [assign_team, hE, validate_or_retry, retryDecision,
              hid, hname, hid2, hname2] at hacc ⊢
            exact ⟨⟨t, ht, rfl, rfl⟩, Or.inr (Or.inr (Or.inr rfl))⟩
          | none =>
            simp [assign_team, hE, validate_or_retry, retryDecision,
              hid, hname, hid2, hname2] at hacc

theorem c1_closed_world_witness :
    (assign_team c1Env 1 "subj" "body" 5).1.assigned_team_id ≠ "" ∧
    ((∃ t ∈ c1Env.teams,
        (assign_team c1Env 1 "subj" "body" 5).1.assigned_team_id = t.team_id ∧
        (assign_team c1Env 1 "subj" "body" 5).1.assigned_team_name = t.team_name) ∧
     ((assign_team c1Env 1 "subj" "body" 5).1.reasoning =
        (c1Env.responses 0).reasoning.getD "Selected by ID." ∨
      (assign_team c1Env 1 "subj" "body" 5).1.reasoning =
        (c1Env.responses 0).reasoning.getD "Selected by name." ∨
      (assign_team c1Env 1 "subj" "body" 5).1.reasoning =
        (c1Env.responses 1).reasoning.getD "Valid team found after retry (by ID)." ∨
      (assign_team c1Env 1 "subj" "body" 5).1.reasoning =
        (c1Env.responses 1).reasoning.getD "Valid team found after retry (by name).")) :=
  ⟨by decide, c1_closed_world Unit c1Env 1 "subj" "body" 5 (by decide)⟩

def scenarioAEnv : AEnv Unit :=
  { teams := [⟨"T1", "Network"⟩, ⟨"T2", "Billing"⟩], sims := [],
    responses := fun n =>
      if n = 0 then ⟨some "t1", some "network", some "matches"⟩
      else ⟨none, none, none⟩ }

/-- Claim C7: validation compares trimmed case-folded strings and matches by
team id first, by team name only when no id matches; on the concrete
Scenario A inputs the accepted decision is the canonical pair with the model
reasoning and a single chat call. -/
theorem c7_validator_priority :
    (∀ (σ : Type) (env : AEnv σ) (p : ParsedResp) (cands : List Team)
        (q : String) (t : Team),
        findById cands (normalize (p.assigned_team_id.getD "")) = some t →
        validate_or_retry env p cands q =
          ({ assigned_team_id := t.team_id, assigned_team_name := t.team_name,
             reasoning := p.reasoning.getD "Selected by ID." }, [])) ∧
    (∀ (σ : Type) (env : AEnv σ) (p : ParsedResp) (cands : List Team)
        (q : String) (t : Team),
        findById cands (normalize (p.assigned_team_id.getD "")) = none →
        findByName cands (normalize (p.assigned_team_name.getD "")) = some t →
        validate_or_retry env p cands q =
          ({ assigned_team_id := t.team_id, assigned_team_name := t.team_name,
             reasoning := p.reasoning.getD "Selected by name." }, [])) ∧
    ((assign_team scenarioAEnv 7 "subj" "body" 5).1 =
        { assigned_team_id := "T1", assigned_team_name := "Network",
          reasoning := "matches" } ∧
     (chatRequests (assign_team scenarioAEnv 7 "subj" "body" 5).2).length = 1) := by
  refine ⟨?_, ?_, ?_⟩
  · intro σ env p cands q t hid
    simp [validate_or_retry, hid]
  · intro σ env p cands q t hid hname
    simp [validate_or_retry, hid, hname]
  · decide

theorem c7_validator_priority_witness :
    findById scenarioAEnv.teams
        (normalize ((⟨some "t1", some "network", some "matches"⟩ :
          ParsedResp).assigned_team_id.getD "")) = some ⟨"T1", "Network"⟩ ∧
    validate_or_retry scenarioAEnv
        (⟨some "t1", some "network", some "matches"⟩ : ParsedResp)
        scenarioAEnv.teams "q" =
      ({ assigned_team_id := "T1", assigned_team_name := "Network",
         reasoning := "matches" }, []) :=
  ⟨by decide,
   c7_validator_priority.1 Unit scenarioAEnv
     ⟨some "t1", some "network", some "matches"⟩ scenarioAEnv.teams "q"
     ⟨"T1", "Network"⟩ (by decide)⟩

theorem reducedCandidates_subset (cands : List Team) (sims : List (Neighbor σ)) :
    ∀ c ∈ reducedCandidates cands sims, c ∈ cands := by
  intro c hc
  simp only [reducedCandidates] at hc
  split at hc
  · exact hc
  · rcases List.mem_append.mp hc with h | h
    · exact (List.mem_filter.mp h).1
    · exact (List.mem_filter.mp (List.take_subset _ _ h)).1

theorem reducedCandidates_no_neighbor (cands : List Team)
    (sims : List (Neighbor σ))
    (h : ∀ c ∈ cands,
        (neighborTeamIds sims).contains (normalize c.team_id) = false) :
    reducedCandidates cands sims = cands := by
  have hf : cands.filter
      (fun c => (neighborTeamIds sims).contains (normalize c.team_id)) = [] := by
    rw [List.filter_eq_nil_iff]
    intro a ha
    simpa using h a ha
  simp only [reducedCandidates]
  rw [hf]
  rfl

theorem assign_team_chatRequests (env : AEnv σ) (ticket_id : Int)
    (subject body : String) (top_k : Nat) (hE : env.teams.isEmpty = false) :
    chatRequests (assign_team env ticket_id subject body top_k).2 =
      firstRequest env.teams env.sims
          ("Subject: " ++ subject ++ "\nBody: " ++ body) ::
        (if firstMatches env = true then []
         else [retryRequest env.teams
                ("Subject: " ++ subject ++ "\nBody: " ++ body)]) := by
  have hvc := validate_or_retry_calls env (env.responses 0) env.teams
    ("Subject: " ++ subject ++ "\nBody: " ++ body)
  cases hB : firstMatches env with
  | true =>
    rw [firstMatches] at hB
    rw [hB] at hvc
    simp [assign_team, hE, chatRequests, hvc]
  | false =>
    rw [firstMatches] at hB
    rw [hB] at hvc
    simp [assign_team, hE, chatRequests, hvc]

def c4Env : AEnv Unit :=
  { teams := [⟨"T1", "A"⟩, ⟨"T2", "B"⟩, ⟨"T3", "C"⟩, ⟨"T4", "D"⟩,
              ⟨"T5", "E"⟩, ⟨"T6", "F"⟩, ⟨"T7", "G"⟩],
    sims := [{ ticket_id := 2, title := none, body := none, answer := none,
               assigned_team_id := some "T3", assigned_team_name := some "C",
               score := () }],
    responses := fun _ => ⟨some "T1", none, none⟩ }

/-- Claim C4, counterexample: with seven loaded candidates and one retrieved
neighbor resolved by team T3, the options list of the first chat request is
the reduced six-team list (neighbor team first, then five others); the loaded
candidate T7 is absent from it. -/
theorem c4_counterexample :
    (chatRequests (assign_team c4Env 1 "subj" "body" 5).2).head? =
      some { model := "gpt-4o-mini", temperature := none,
             responseFormatJson := true,
             optionsList := [⟨"T3", "C"⟩, ⟨"T1", "A"⟩, ⟨"T2", "B"⟩,
                             ⟨"T4", "D"⟩, ⟨"T5", "E"⟩, ⟨"T6", "F"⟩],
             queryText := "Subject: subj\nBody: body" } ∧
    (⟨"T7", "G"⟩ : Team) ∈ c4Env.teams ∧
    (⟨"T7", "G"⟩ : Team) ∉
      [(⟨"T3", "C"⟩ : Team), ⟨"T1", "A"⟩, ⟨"T2", "B"⟩,
       ⟨"T4", "D"⟩, ⟨"T5", "E"⟩, ⟨"T6", "F"⟩] := by
  decide

/-- Claim C4 as amended: the team-options list of the first chat request is
the neighbor-biased reduced list, namely the loaded candidates whose
normalized team id was observed among the retrieved neighbors, in load
order, followed by the first at most five of the remaining candidates; when
no loaded candidate matches a neighbor-observed team id it is the full
candidate list.  In particular the list only contains loaded candidates. -/
theorem c4_reduced_options (σ : Type) (env : AEnv σ) (ticket_id : Int)
    (subject body : String) (top_k : Nat) (h : env.teams ≠ []) :
    ∃ req,
      (chatRequests (assign_team env ticket_id subject body top_k).2).head? =
        some req ∧
      req.optionsList =
        (if env.teams.filter
            (fun c => (neighborTeamIds env.sims).contains (normalize c.team_id)) = []
         then env.teams
         else
           env.teams.filter
             (fun c => (neighborTeamIds env.sims).contains (normalize c.team_id)) ++
           (env.teams.filter
             (fun c => !((neighborTeamIds env.sims).contains (normalize c.team_id)))).take 5) ∧
      (∀ c ∈ req.optionsList, c ∈ env.teams) := by
  have hE : env.teams.isEmpty = false := by
    cases hT : env.teams with
    | nil => exact absurd hT h
    | cons a l => rfl
  refine ⟨firstRequest env.teams env.sims
      ("Subject: " ++ subject ++ "\nBody: " ++ body), ?_, ?_, ?_⟩
  · rw [assign_team_chatRequests env ticket_id subject body top_k hE]
    rfl
  · show reducedCandidates env.teams env.sims = _
    simp only [reducedCandidates]
    by_cases hf : env.teams.filter
        (fun c => (neighborTeamIds env.sims).contains (normalize c.team_id)) = []
    · rw [hf]
      simp
    · have hb : (env.teams.filter
          (fun c => (neighborTeamIds env.sims).contains (normalize c.team_id))).isEmpty
            = false := by
        cases hc : env.teams.filter
            (fun c => (neighborTeamIds env.sims).contains (normalize c.team_id)) with
        | nil => exact absurd hc hf
        | cons a l => rfl
      rw [hb, if_neg hf]
      rfl
  · intro c hc
    exact reducedCandidates_subset env.teams env.sims c hc

theorem c4_reduced_options_witness :
    c4Env.teams ≠ [] ∧
    ∃ req,
      (chatRequests (assign_team c4Env 1 "subj" "body" 5).2).head? =
        some req ∧
      req.optionsList =
        (if c4Env.teams.filter
            (fun c => (neighborTeamIds c4Env.sims).contains (normalize c.team_id)) = []
         then c4Env.teams
         else
           c4Env.teams.filter
             (fun c => (neighborTeamIds c4Env.sims).contains (normalize c.team_id)) ++
           (c4Env.teams.filter
             (fun c => !((neighborTeamIds c4Env.sims).contains (normalize c.team_id)))).take 5) ∧
      (∀ c ∈ req.optionsList, c ∈ c4Env.teams) :=
  ⟨by decide, c4_reduced_options Unit c4Env 1 "subj" "body" 5 (by decide)⟩

def c10Env : AEnv Unit :=
  { teams := [⟨"T1", "A"⟩], sims := [],
    responses := fun _ => ⟨some "zz", some "zz", none⟩ }

/-- Claim C10, counterexample: the first chat request of assign_team carries
no temperature argument (the line passing zero is commented out in the
source), so the first attempt is not made with temperature zero. -/
theorem c10_counterexample :
    ((chatRequests (assign_team c10Env 1 "subj" "body" 5).2).head?.map
        ChatRequest.temperature) = some none ∧
    some (none : Option Nat) ≠ some (some 0) := by
  decide

/-- Claim C10 as amended: the first chat request of assign_team passes no
temperature argument, so the provider default applies, while the retry chat
request passes temperature zero. -/
theorem c10_temperature (σ : Type) (env : AEnv σ) (ticket_id : Int)
    (subject body : String) (top_k : Nat) :
    (∀ req,
      (chatRequests (assign_team env ticket_id subject body top_k).2).get? 0 =
        some req → req.temperature = none) ∧
    (∀ req,
      (chatRequests (assign_team env ticket_id subject body top_k).2).get? 1 =
        some req → req.temperature = some 0) := by
  cases hE : env.teams.isEmpty with
  | true =>
    constructor <;> intro req hreq <;>
      simp [assign_team, hE, chatRequests] at hreq
  | false =>
    have hcr := assign_team_chatRequests env ticket_id subject body top_k hE
    constructor
    · intro req hreq
      rw [hcr] at hreq
      simp at hreq
      rw [← hreq]
      rfl
    · intro req hreq
      rw [hcr] at hreq
      cases hB : firstMatches env with
      | true =>
        rw [hB] at hreq
        simp at hreq
      | false =>
        rw [hB] at hreq
        simp at hreq
        rw [← hreq]
        rfl

theorem c10_temperature_witness :
    (chatRequests (assign_team c10Env 1 "subj" "body" 5).2).get? 0 =
      some (firstRequest c10Env.teams c10Env.sims "Subject: subj\nBody: body") ∧
    (firstRequest c10Env.teams c10Env.sims
        "Subject: subj\nBody: body").temperature = none ∧
    (chatRequests (assign_team c10Env 1 "subj" "body" 5).2).get? 1 =
      some (retryRequest c10Env.teams "Subject: subj\nBody: body") ∧
    (retryRequest c10Env.teams "Subject: subj\nBody: body").temperature = some 0 :=
  ⟨by decide,
   (c10_temperature Unit c10Env 1 "subj" "body" 5).1 _ (by decide),
   by decide,
   (c10_temperature Unit c10Env 1 "subj" "body" 5).2 _ (by decide)⟩

def c5Env : SolEnv Unit := { sims := [], respSolution := some "model text" }

/-- Claim C5: evaluation of generate_solution at the failing input, subject
and body both empty.  The interpolated query text keeps the literal labels,
so it is non-empty after stripping and the short-circuit branch is dead: the
engine issues the embedding, retrieval and one chat call and returns the
model-derived solution, not the static advisory message with zero calls. -/
theorem c5_empty_input_not_short_circuited :
    pyStrip ("Subject: " ++ "" ++ "\nBody: " ++ "") ≠ "" ∧
    generate_solution c5Env 1 "" "" 5 =
      ({ solution := "model text", sources := [] },
       [SCall.embed "Subject: \nBody:", SCall.retrieve 5 1,
        SCall.chat { model := "gpt-4o-mini", temperature := some 0,
                     responseFormatJson := true,
                     queryText := "Subject: \nBody:", contextLines := [] }]) ∧
    (generate_solution c5Env 1 "" "" 5).1.solution ≠
      "No subject/body found for this ticket. Please provide details." := by
  decide

/-- Claim C6: for every decoder and every input string the parser returns a
record along the cascade: the direct decode of the fence-stripped stripped
text when that succeeds, else the decode of the first-to-last-brace
substring when that succeeds, else the degraded record that carries the
cleaned text as the team name together with the diagnostic reasoning.
Totality (never raises) is inherent in the embedding being a function. -/
theorem c6_graceful_parse (loads : String → Option ParsedResp) (s : String) :
    loads (stripTrailFence (stripLeadFence (pyStrip s))) =
        some (safe_parse_json loads s) ∨
    (loads (stripTrailFence (stripLeadFence (pyStrip s))) = none ∧
      ∃ sub,
        extractBraces (stripTrailFence (stripLeadFence (pyStrip s))) = some sub ∧
        loads sub = some (safe_parse_json loads s)) ∨
    safe_parse_json loads s =
      { assigned_team_id := some "",
        assigned_team_name :=
          some (pyStrip (stripTrailFence (stripLeadFence (pyStrip s)))),
        reasoning := some "Parsed from non-JSON output." } := by
  cases h1 : loads (stripTrailFence (stripLeadFence (pyStrip s))) with
  | some r => exact Or.inl (by simp [safe_parse_json, h1])
  | none =>
    cases h2 : extractBraces (stripTrailFence (stripLeadFence (pyStrip s))) with
    | some sub =>
      cases h3 : loads sub with
      | some r =>
        exact Or.inr (Or.inl ⟨rfl, sub, rfl, by simp [safe_parse_json, h1, h2, h3]⟩)
      | none =>
        exact Or.inr (Or.inr (by simp [safe_parse_json, h1, h2, h3]))
    | none => exact Or.inr (Or.inr (by simp [safe_parse_json, h1, h2]))

theorem buildContext_spec (sims : List (Neighbor σ)) :
    (∀ line ∈ (buildContext sims).1, ∃ r ∈ sims,
        is_actionable (some (pyOr r.answer "")) = true ∧
        line = { ticket_id := r.ticket_id, title := pyOr r.title "N/A",
                 answer := pyOr r.answer "" }) ∧
    (∀ src ∈ (buildContext sims).2, ∃ r ∈ sims,
        is_actionable (some (pyOr r.answer "")) = true ∧
        src = { ticket_id := r.ticket_id, title := r.title, score := r.score }) := by
  induction sims with
  | nil => simp [buildContext]
  | cons r rest ih =>
    by_cases hA : is_actionable (some (pyOr r.answer "")) = true
    · have hbc : buildContext (r :: rest) =
        ({ ticket_id := r.ticket_id, title := pyOr r.title "N/A",
           answer := pyOr r.answer "" } :: (buildContext rest).1,
         { ticket_id := r.ticket_id, title := r.title,
           score := r.score } :: (buildContext rest).2) := by
        simp [buildContext, hA]
      rw [hbc]
      constructor
      · intro line hline
        rcases List.mem_cons.mp hline with heq | hmem
        · exact ⟨r, List.mem_cons_self r rest, hA, heq⟩
        · obtain ⟨r2, hr2, hact, heq⟩ := ih.1 line hmem
          exact ⟨r2, List.mem_cons_of_mem r hr2, hact, heq⟩
      · intro src hsrc
        rcases List.mem_cons.mp hsrc with heq | hmem
        · exact ⟨r, List.mem_cons_self r rest, hA, heq⟩
        · obtain ⟨r2, hr2, hact, heq⟩ := ih.2 src hmem
          exact ⟨r2, List.mem_cons_of_mem r hr2, hact, heq⟩
    · have hbc : buildContext (r :: rest) = buildContext rest := by
        simp [buildContext, hA]
      rw [hbc]
      constructor
      · intro line hline
        obtain ⟨r2, hr2, hact, heq⟩ := ih.1 line hline
        exact ⟨r2, List.mem_cons_of_mem r hr2, hact, heq⟩
      · intro src hsrc
        obtain ⟨r2, hr2, hact, heq⟩ := ih.2 src hsrc
        exact ⟨r2, List.mem_cons_of_mem r hr2, hact, heq⟩

/-- Claim C8: every context line of the synthesis chat request and every
returned source comes from a retrieved neighbor whose answer passed the
actionability filter; a neighbor whose answer is absent, shorter than 40
characters after stripping, or matching a deflection keyword contributes to
neither. -/
theorem c8_actionability_filter (σ : Type) (env : SolEnv σ) (ticket_id : Int)
    (subject body : String) (top_k : Nat) :
    (∀ req ∈ sChatRequests (generate_solution env ticket_id subject body top_k).2,
      ∀ line ∈ req.contextLines, ∃ r ∈ env.sims,
        is_actionable (some (pyOr r.answer "")) = true ∧
        line = { ticket_id := r.ticket_id, title := pyOr r.title "N/A",
                 answer := pyOr r.answer "" }) ∧
    (∀ src ∈ (generate_solution env ticket_id subject body top_k).1.sources,
      ∃ r ∈ env.sims,
        is_actionable (some (pyOr r.answer "")) = true ∧
        src = { ticket_id := r.ticket_id, title := r.title, score := r.score }) := by
  by_cases hq : pyStrip ("Subject: " ++ subject ++ "\nBody: " ++ body) = ""
  · constructor
    · intro req hreq
      simp [generate_solution, hq, sChatRequests] at hreq
    · intro src hsrc
      simp [generate_solution, hq] at hsrc
  · constructor
    · intro req hreq line hline
      simp only [generate_solution, hq, if_neg, sChatRequests,
        List.filterMap_cons, List.filterMap_nil] at hreq
      simp at hreq
      rw [hreq] at hline
      exact (buildContext_spec env.sims).1 line hline
    · intro src hsrc
      simp only [generate_solution, hq, if_neg] at hsrc
      simp at hsrc
      exact (buildContext_spec env.sims).2 src hsrc

def c8Env : SolEnv Unit :=
  { sims := [
      { ticket_id := 11, title := some "VPN drops", body := none,
        answer := some "Restart the VPN client, then re-join the corporate network profile and verify connectivity.",
        assigned_team_id := none, assigned_team_name := none, score := () },
      { ticket_id := 12, title := some "Other", body := none,
        answer := some "Too short.",
        assigned_team_id := none, assigned_team_name := none, score := () }],
    respSolution := some "sol" }

theorem c8_actionability_filter_witness :
    ∃ r ∈ c8Env.sims,
      is_actionable (some (pyOr r.answer "")) = true ∧
      ({ ticket_id := 11, title := some "VPN drops", score := () } :
          SourceRef Unit) =
        { ticket_id := r.ticket_id, title := r.title, score := r.score } :=
  (c8_actionability_filter Unit c8Env 3 "subj" "body" 5).2
    ⟨11, some "VPN drops", ()⟩ (by decide)

theorem llm_grade_similarity_of_parsed (loadsJudge : String → Option JudgeParsed)
    (content : String) (tid : Int) (s b ref gen : String) (data : JudgeParsed)
    (hd : loadsJudge content = some data)
    (h3 : pyStrip ref ≠ "") (h4 : pyStrip gen ≠ "") :
    (llm_grade_solution loadsJudge content tid s b ref gen).similarity =
      max 0 (min 1 (data.similarity.getD 0)) := by
  simp [llm_grade_solution, h3, h4, hd]

theorem llm_grade_similarity_cases (loadsJudge : String → Option JudgeParsed)
    (content : String) (tid : Int) (s b ref gen : String) :
    (llm_grade_solution loadsJudge content tid s b ref gen).similarity = 0 ∨
    ∃ data, loadsJudge content = some data ∧
      (llm_grade_solution loadsJudge content tid s b ref gen).similarity =
        max 0 (min 1 (data.similarity.getD 0)) := by
  by_cases h3 : pyStrip ref = ""
  · left
    simp [llm_grade_solution, h3]
  · by_cases h4 : pyStrip gen = ""
    · left
      simp [llm_grade_solution, h3, h4]
    · cases hd : loadsJudge content with
      | none =>
        left
        simp [llm_grade_solution, h3, h4, hd]
      | some data =>
        right
        exact ⟨data, rfl, llm_grade_similarity_of_parsed loadsJudge content
          tid s b ref gen data hd h3 h4⟩

/-- Claim C9: the similarity reported by llm_grade_solution always lies in
the unit interval, and whenever the judge response parses with a numeric
similarity, a raw value at most zero is reported as zero and a raw value at
least one is reported as one. -/
theorem c9_judge_clamp (loadsJudge : String → Option JudgeParsed)
    (content : String) (tid : Int) (s b ref gen : String) :
    (0 ≤ (llm_grade_solution loadsJudge content tid s b ref gen).similarity ∧
     (llm_grade_solution loadsJudge content tid s b ref gen).similarity ≤ 1) ∧
    (∀ data x, loadsJudge content = some data → data.similarity = some x →
      pyStrip ref ≠ "" → pyStrip gen ≠ "" →
      ((x ≤ 0 →
        (llm_grade_solution loadsJudge content tid s b ref gen).similarity = 0) ∧
       (1 ≤ x →
        (llm_grade_solution loadsJudge content tid s b ref gen).similarity = 1))) := by
  constructor
  · rcases llm_grade_similarity_cases loadsJudge content tid s b ref gen with
      h | ⟨data, hd, h⟩
    · rw [h]
      exact ⟨le_refl 0, zero_le_one⟩
    · rw [h]
      exact ⟨le_max_left 0 _, max_le zero_le_one (min_le_left 1 _)⟩
  · intro data x hd hx h3 h4
    have h := llm_grade_similarity_of_parsed loadsJudge content tid s b ref gen
      data hd h3 h4
    rw [hx, Option.getD_some] at h
    constructor
    · intro hle
      rw [h]
      exact max_eq_left (le_trans (min_le_right 1 x) hle)
    · intro hge
      rw [h, min_eq_left hge]
      exact max_eq_right zero_le_one

def judgeRespLow : JudgeParsed :=
  { similarity := some (-(3/10) : ℚ), category := some "good_match",
    explanation := some "e" }

def loadsJLow : String → Option JudgeParsed := fun _ => some judgeRespLow

theorem c9_judge_clamp_witness :
    loadsJLow "raw" = some judgeRespLow ∧
    judgeRespLow.similarity = some (-(3/10) : ℚ) ∧
    pyStrip "reference text" ≠ "" ∧
    pyStrip "generated text" ≠ "" ∧
    ((-(3/10) : ℚ) ≤ 0 →
      (llm_grade_solution loadsJLow "raw" 1 "s" "b" "reference text"
        "generated text").similarity = 0) ∧
    ((1 : ℚ) ≤ -(3/10) →
      (llm_grade_solution loadsJLow "raw" 1 "s" "b" "reference text"
        "generated text").similarity = 1) :=
  ⟨rfl, rfl, by decide, by decide,
   ((c9_judge_clamp loadsJLow "raw" 1 "s" "b" "reference text"
      "generated text").2 judgeRespLow (-(3/10)) rfl rfl (by decide)
      (by decide)).1,
   ((c9_judge_clamp loadsJLow "raw" 1 "s" "b" "reference text"
      "generated text").2 judgeRespLow (-(3/10)) rfl rfl (by decide)
      (by decide)).2⟩

end SmartTickets
